import Mathlib

/-!
Verification of the `/recommend` request handler (`src/app.py`).

A shallow embedding of the Flask endpoint in `src/app.py`:

* `Json` models Python values that can arrive as a parsed JSON request body
  or be produced by `json.loads`.
* `json_loads` models the Python function `json.loads` on the extracted substring
  (error-message texts and the non-standard `NaN`/`Infinity` literals are
  not reproduced; no claim depends on them).
* Python-level operations used by the code — truthiness, `in`, `str()`
  interpolation, `dict.get`, subscription, iteration, `float()` coercion,
  `str.strip`, `str.find` / `str.rfind`, slicing — are modelled explicitly;
  operations that can raise return `Except String`.
* Calendar dates are modelled as day ordinals (`Nat`): `datetime.utcnow().date()`
  is an arbitrary `today : Nat` and `timedelta(days = k)` is `+ k`.
* The provider (`genai.GenerativeModel(...).generate_content(...).text`) is a
  black-box function from the prompt to either an exception message or an
  optional text, matching how the spec treats it.
-/

/-- Python/JSON values as produced by `request.get_json` or `json.loads`.
Numbers are kept as a decimal mantissa/exponent pair (`mant * 10 ^ exp`);
no claim inspects numeric values beyond zero-ness. -/
inductive Json where
  | null : Json
  | bool (b : Bool) : Json
  | num (mant : Int) (exp : Int) : Json
  | str (s : String) : Json
  | arr (xs : List Json) : Json
  | obj (kvs : List (String × Json)) : Json

/-- Python truthiness (`if not data`): `None`, `False`, numeric zero, and the
empty string / list / dict are falsy. -/
def Json.truthy : Json → Bool
  | .null => false
  | .bool b => b
  | .num m _ => m != 0
  | .str s => s != ""
  | .arr xs => !xs.isEmpty
  | .obj kvs => !kvs.isEmpty

/-- First binding of a key in an association list (dicts built by the parser
have unique keys, so first = only). -/
def dictLookup (kvs : List (String × Json)) (k : String) : Option Json :=
  (kvs.find? (fun kv => kv.1 == k)).map (fun kv => kv.2)

/-- Whether a dict has a key. -/
def dictHasKey (kvs : List (String × Json)) (k : String) : Bool :=
  (dictLookup kvs k).isSome

/-- Python dict insertion: overwriting an existing key keeps its original
position, a new key is appended.  Used to model duplicate-key JSON objects
(last value wins). -/
def dictInsert (kvs : List (String × Json)) (k : String) (v : Json) :
    List (String × Json) :=
  if dictHasKey kvs k then
    kvs.map (fun kv => if kv.1 == k then (k, v) else kv)
  else
    kvs ++ [(k, v)]

/-- Fold a parsed key/value sequence into a Python dict. -/
def mkDict (items : List (String × Json)) : List (String × Json) :=
  items.foldl (fun d kv => dictInsert d kv.1 kv.2) []

/-! ## The JSON parser modelling `json.loads` -/

/-- JSON whitespace (RFC 8259: space, tab, line feed, carriage return). -/
def jsonWs (c : Char) : Bool :=
  c = ' ' || c = '\t' || c = '\n' || c = '\r'

/-- Skip JSON whitespace. -/
def jpSkipWs (s : List Char) : List Char :=
  s.dropWhile jsonWs

/-- Value of a hexadecimal digit. -/
def hexVal (c : Char) : Option Nat :=
  if '0' ≤ c ∧ c ≤ '9' then some (c.toNat - 48)
  else if 'a' ≤ c ∧ c ≤ 'f' then some (c.toNat - 87)
  else if 'A' ≤ c ∧ c ≤ 'F' then some (c.toNat - 70)
  else none

/-- String body parser, after the opening quote: JSON escapes, raw control
characters rejected.  (`\u` surrogate pairing is not modelled; single
code units become the corresponding character.) -/
def jpStringGo : List Char → List Char → Option (String × List Char)
  | acc, '"' :: rest => some (String.mk acc.reverse, rest)
  | acc, '\\' :: '"' :: rest => jpStringGo ('"' :: acc) rest
  | acc, '\\' :: '\\' :: rest => jpStringGo ('\\' :: acc) rest
  | acc, '\\' :: '/' :: rest => jpStringGo ('/' :: acc) rest
  | acc, '\\' :: 'b' :: rest => jpStringGo ('\x08' :: acc) rest
  | acc, '\\' :: 'f' :: rest => jpStringGo ('\x0c' :: acc) rest
  | acc, '\\' :: 'n' :: rest => jpStringGo ('\n' :: acc) rest
  | acc, '\\' :: 'r' :: rest => jpStringGo ('\r' :: acc) rest
  | acc, '\\' :: 't' :: rest => jpStringGo ('\t' :: acc) rest
  | acc, '\\' :: 'u' :: a :: b :: c :: d :: rest =>
    match hexVal a, hexVal b, hexVal c, hexVal d with
    | some ha, some hb, some hc, some hd =>
      jpStringGo (Char.ofNat (((ha * 16 + hb) * 16 + hc) * 16 + hd) :: acc) rest
    | _, _, _, _ => none
  | _, '\\' :: _ => none
  | acc, c :: rest => if c.toNat < 32 then none else jpStringGo (c :: acc) rest
  | _, [] => none

/-- Parse a JSON string literal after its opening quote. -/
def jpString (s : List Char) : Option (String × List Char) :=
  jpStringGo [] s

/-- Decimal value of a digit list. -/
def digitsToNat (ds : List Char) : Nat :=
  ds.foldl (fun n c => n * 10 + (c.toNat - 48)) 0

/-- Digits of a JSON exponent. -/
def jpExpDigits (s : List Char) : Option (Int × List Char) :=
  match s.span Char.isDigit with
  | ([], _) => none
  | (ds, r) => some ((digitsToNat ds : Int), r)

/-- Optionally signed digits of a JSON exponent. -/
def jpExpSigned : List Char → Option (Int × List Char)
  | '+' :: rest => jpExpDigits rest
  | '-' :: rest =>
    match jpExpDigits rest with
    | some (e, r) => some (-e, r)
    | none => none
  | rest => jpExpDigits rest

/-- Parse the optional exponent part of a JSON number; returns the exponent
(default 0) and the rest. -/
def jpExpPart : List Char → Option (Int × List Char)
  | 'e' :: rest => jpExpSigned rest
  | 'E' :: rest => jpExpSigned rest
  | s => some (0, s)

/-- Parse a JSON number (`-? int frac? exp?`, no leading zeros). -/
def jpNumber (s : List Char) : Option (Json × List Char) :=
  let signed : Bool × List Char :=
    match s with
    | '-' :: rest => (true, rest)
    | _ => (false, s)
  match (signed.2).span Char.isDigit with
  | ([], _) => none
  | (ds, r1) =>
    if ds.length > 1 ∧ ds.headD '0' = '0' then none
    else
      let withFrac : Option (List Char × List Char) :=
        match r1 with
        | '.' :: r2 =>
          match r2.span Char.isDigit with
          | ([], _) => none
          | (fs, r3) => some (fs, r3)
        | _ => some ([], r1)
      match withFrac with
      | none => none
      | some (fs, r3) =>
        match jpExpPart r3 with
        | none => none
        | some (e, r4) =>
          let mant : Int := (digitsToNat (ds ++ fs) : Int)
          let mant := if signed.1 then -mant else mant
          some (.num mant (e - (fs.length : Int)), r4)

mutual

/-- Parse one JSON value (fuelled; fuel `2 * length + 2` always suffices
for the inputs we evaluate). -/
def jpValue : Nat → List Char → Option (Json × List Char)
  | 0, _ => none
  | fuel + 1, s =>
    match jpSkipWs s with
    | 'n' :: 'u' :: 'l' :: 'l' :: rest => some (.null, rest)
    | 't' :: 'r' :: 'u' :: 'e' :: rest => some (.bool true, rest)
    | 'f' :: 'a' :: 'l' :: 's' :: 'e' :: rest => some (.bool false, rest)
    | '"' :: rest =>
      match jpString rest with
      | some (str, r) => some (.str str, r)
      | none => none
    | '[' :: rest =>
      match jpSkipWs rest with
      | ']' :: r => some (.arr [], r)
      | r => match jpArrItems fuel r with
        | some (xs, r2) => some (.arr xs, r2)
        | none => none
    | '\x7b' :: rest =>
      match jpSkipWs rest with
      | '\x7d' :: r => some (.obj [], r)
      | r => match jpObjItems fuel r with
        | some (kvs, r2) => some (.obj (mkDict kvs), r2)
        | none => none
    | s2 => jpNumber s2

/-- Parse `value (, value)*` then `]`. -/
def jpArrItems : Nat → List Char → Option (List Json × List Char)
  | 0, _ => none
  | fuel + 1, s =>
    match jpValue fuel s with
    | none => none
    | some (v, r) =>
      match jpSkipWs r with
      | ',' :: r2 =>
        match jpArrItems fuel r2 with
        | some (vs, r3) => some (v :: vs, r3)
        | none => none
      | ']' :: r2 => some ([v], r2)
      | _ => none

/-- Parse `"key" : value (, "key" : value)*` then the closing brace. -/
def jpObjItems : Nat → List Char → Option (List (String × Json) × List Char)
  | 0, _ => none
  | fuel + 1, s =>
    match jpSkipWs s with
    | '"' :: r =>
      match jpString r with
      | none => none
      | some (k, r1) =>
        match jpSkipWs r1 with
        | ':' :: r2 =>
          match jpValue fuel r2 with
          | none => none
          | some (v, r3) =>
            match jpSkipWs r3 with
            | ',' :: r4 =>
              match jpObjItems fuel r4 with
              | some (kvs, r5) => some ((k, v) :: kvs, r5)
              | none => none
            | '\x7d' :: r4 => some ([(k, v)], r4)
            | _ => none
        | _ => none
    | _ => none

end

/-- Model of `json.loads`: parse one value, allow trailing whitespace only.
Error-message text is modelled (the Python messages carry positions). -/
def json_loads (s : String) : Except String Json :=
  match jpValue (2 * s.length + 2) s.data with
  | none => .error "Expecting value"
  | some (v, rest) =>
    if jpSkipWs rest = [] then .ok v else .error "Extra data"

/-! ## Python-level operations used by `app.py` -/

/-- Decimal rendering of a mantissa/exponent number for `str()` interpolation
(the Python shortest-float repr is modelled as plain decimal; no claim
inspects this text). -/
def numRepr (m e : Int) : String :=
  if e = 0 then toString m
  else if 0 ≤ e then toString (m * 10 ^ e.toNat) ++ ".0"
  else
    let k := (-e).toNat
    let ds := toString m.natAbs
    let ds := if ds.length ≤ k then
        String.mk (List.replicate (k + 1 - ds.length) '0') ++ ds
      else ds
    (if m < 0 then "-" else "") ++
      String.mk (ds.data.take (ds.length - k)) ++ "." ++
      String.mk (ds.data.drop (ds.length - k))

mutual

/-- Python `repr()` of a JSON-shaped value (string escaping inside `repr`
is modelled as plain quoting; unreached by every claim). -/
def pyRepr : Json → String
  | .null => "None"
  | .bool true => "True"
  | .bool false => "False"
  | .num m e => numRepr m e
  | .str s => "\x27" ++ s ++ "\x27"
  | .arr xs => "[" ++ pyReprList xs ++ "]"
  | .obj kvs => "\x7b" ++ pyReprDict kvs ++ "\x7d"

/-- `repr` of list elements, comma-separated. -/
def pyReprList : List Json → String
  | [] => ""
  | [x] => pyRepr x
  | x :: xs => pyRepr x ++ ", " ++ pyReprList xs

/-- `repr` of dict items, comma-separated. -/
def pyReprDict : List (String × Json) → String
  | [] => ""
  | [(k, v)] => "\x27" ++ k ++ "\x27: " ++ pyRepr v
  | (k, v) :: kvs => "\x27" ++ k ++ "\x27: " ++ pyRepr v ++ ", " ++ pyReprDict kvs

end

/-- Python `str()` as used by f-string interpolation. -/
def pyStr : Json → String
  | .str s => s
  | j => pyRepr j

/-- Python subscription `j[k]` with a string key; raises on missing keys and
non-dict values. -/
def pyGetItem (j : Json) (k : String) : Except String Json :=
  match j with
  | .obj kvs =>
    match dictLookup kvs k with
    | some v => .ok v
    | none => .error ("KeyError: \x27" ++ k ++ "\x27")
  | .arr _ => .error "TypeError: list indices must be integers or slices, not str"
  | .str _ => .error "TypeError: string indices must be integers"
  | _ => .error "TypeError: object is not subscriptable"

/-- Python `j.get(k, d)` — only dicts have `.get`. -/
def pyDictGetD (j : Json) (k : String) (d : Json) : Except String Json :=
  match j with
  | .obj kvs => .ok ((dictLookup kvs k).getD d)
  | _ => .error "AttributeError: object has no attribute get"

/-- `p` occurs at the start of `l`. -/
def leadsWith : List Char → List Char → Bool
  | [], _ => true
  | _ :: _, [] => false
  | p :: ps, c :: cs => p == c && leadsWith ps cs

/-- `needle` occurs somewhere inside `hay` (Python `sub in str`). -/
def hasSub (needle : List Char) : List Char → Bool
  | [] => leadsWith needle []
  | c :: cs => leadsWith needle (c :: cs) || hasSub needle cs

/-- Python membership `k in data` for a string `k`: dict-key test, list
element equality, substring test; raises for non-container values. -/
def pyContains (data : Json) (k : String) : Except String Bool :=
  match data with
  | .obj kvs => .ok (dictHasKey kvs k)
  | .arr xs => .ok (xs.any (fun x => match x with | .str s => s == k | _ => false))
  | .str s => .ok (hasSub k.data s.data)
  | _ => .error "TypeError: argument of type is not iterable"

/-- Python iteration over a value: list elements, string characters,
dict keys; raises otherwise. -/
def pyIter (j : Json) : Except String (List Json) :=
  match j with
  | .arr xs => .ok xs
  | .str s => .ok (s.data.map (fun c => .str (String.mk [c])))
  | .obj kvs => .ok (kvs.map (fun kv => .str kv.1))
  | _ => .error "TypeError: object is not iterable"

/-- Whitespace stripped by `str.strip()` (the ASCII subset). -/
def pySpace (c : Char) : Bool :=
  c = ' ' || c = '\t' || c = '\n' || c = '\r' || c = '\x0b' || c = '\x0c'

/-- Python `str.strip()`. -/
def pyStrip (s : String) : String :=
  String.mk (((s.data.dropWhile pySpace).reverse.dropWhile pySpace).reverse)

/-- Python `str.find(c)`: index of the first occurrence (`-1` is `none`). -/
def pyFind (c : Char) (l : List Char) : Option Nat :=
  l.findIdx? (fun x => x == c)

/-- Python `str.rfind(c)`: index of the last occurrence (`-1` is `none`). -/
def pyRFind (c : Char) (l : List Char) : Option Nat :=
  match l.reverse.findIdx? (fun x => x == c) with
  | some i => some (l.length - 1 - i)
  | none => none

/-- Python slice `l[a:b]` for `0 ≤ a, b` (empty when `b ≤ a`). -/
def pySlice (l : List Char) (a b : Nat) : List Char :=
  (l.drop a).take (b - a)

/-- Exponent-suffix digits (after the `e`, already lowercased). -/
def expDigitsOk (r : List Char) : Bool :=
  let r2 := match r with
    | '+' :: t => t
    | '-' :: t => t
    | _ => r
  !r2.isEmpty && r2.all Char.isDigit

/-- Optional exponent suffix of a float literal. -/
def expOk : List Char → Bool
  | [] => true
  | 'e' :: r => expDigitsOk r
  | _ => false

/-- Decimal float-literal body: `digits [. digits] [exp]` with at least one
digit around the point. -/
def decFloatOk (cs : List Char) : Bool :=
  let sp := cs.span Char.isDigit
  match sp.2 with
  | '.' :: r2 =>
    let sp2 := r2.span Char.isDigit
    (!sp.1.isEmpty || !sp2.1.isEmpty) && expOk sp2.2
  | _ => !sp.1.isEmpty && expOk sp.2

/-- Whether Python `float(s)` accepts the string `s` (underscore digit
separators are not modelled; no claim uses them). -/
def pyFloatStrOk (s : String) : Bool :=
  let t := (pyStrip s).data.map Char.toLower
  let body := match t with
    | '+' :: r => r
    | '-' :: r => r
    | _ => t
  body == "inf".data || body == "infinity".data || body == "nan".data ||
    decFloatOk body

/-- Python `float(x)` viewed as a coercibility check (the numeric value is
never used by the code). -/
def pyFloatCheck : Json → Except String Unit
  | .num _ _ => .ok ()
  | .bool _ => .ok ()
  | .str s =>
    if pyFloatStrOk s then .ok ()
    else .error "ValueError: could not convert string to float"
  | _ => .error "TypeError: float() argument must be a string or a real number"

/-! ## The request handler (`src/app.py`) -/

/-- The `required` key list of `validate_payload`, in declared order. -/
def requiredKeys : List String :=
  ["plant_name", "disease_percentage", "previous_fertilizers",
   "acres", "location", "predicted_class"]

/-- `[k for k in required if k not in data]` — memberships are evaluated in
order and a membership on a non-container raises. -/
def findMissing (data : Json) : List String → Except String (List String)
  | [] => .ok []
  | k :: ks => do
    let c ← pyContains data k
    let rest ← findMissing data ks
    .ok (if c then rest else k :: rest)

/-- The body of the `try` block of `validate_payload`:
`float(data["disease_percentage"]); float(data["acres"])`. -/
def numericCheck (data : Json) : Except String Unit := do
  let v1 ← pyGetItem data "disease_percentage"
  pyFloatCheck v1
  let v2 ← pyGetItem data "acres"
  pyFloatCheck v2

/-- `validate_payload` (`app.py` lines 58–73). `.ok none` means valid,
`.ok (some msg)` means `(False, msg)`; `.error` is an exception escaping
the function (possible only from the membership tests — the bare
`except:` swallows everything raised by the float coercions). -/
def validate_payload (data : Json) : Except String (Option String) := do
  let missing ← findMissing data requiredKeys
  if missing.isEmpty then
    match numericCheck data with
    | .ok _ => .ok none
    | .error _ => .ok (some "disease_percentage and acres must be numbers.")
  else
    .ok (some ("Missing: " ++ String.intercalate ", " missing))

/-- The `SYSTEM_INSTRUCTIONS` constant (`app.py` lines 19–23). -/
def SYSTEM_INSTRUCTIONS : String :=
  "\nYou are an agronomy assistant. Suggest pesticide recommendations and treatment\nschedules based on crop, disease, severity, and field details.\nReturn strictly JSON only.\n"

/-- The fixed tail of the prompt after the last interpolated field
(the literal OUTPUT example; `\x7b`/`\x7d` are the brace characters). -/
def promptOutputSection : String :=
  "\n\nOUTPUT:\nProvide JSON strictly in this format:\n\x7b\n  \"confidence\": 0.9,\n  \"treatment_schedule\": [\n    \x7b\n      \"product\": \"Azoxystrobin + Difenoconazole\",\n      \"timing\": \"Day 0\",\n      \"notes\": \"Systemic fungicide\"\n    \x7d,\n    \x7b\n      \"product\": \"Mancozeb\",\n      \"timing\": \"Day 7\",\n      \"notes\": \"Protectant fungicide\"\n    \x7d\n  ]\n\x7d\n"

/-- The interpolated expression
`payload.get("previous_fertilizers") or "None"` of `make_prompt` line 34,
as rendered by the f-string. -/
def fertFragment (payload : Json) : Except String String := do
  let v ← pyDictGetD payload "previous_fertilizers" .null
  .ok (if v.truthy then pyStr v else "None")

/-- `make_prompt` (`app.py` lines 26–56): the f-string, with the
interpolated expressions evaluated in order of appearance. -/
def make_prompt (payload : Json) : Except String String := do
  let pn ← pyGetItem payload "plant_name"
  let dp ← pyGetItem payload "disease_percentage"
  let pf ← fertFragment payload
  let ac ← pyGetItem payload "acres"
  let loc ← pyGetItem payload "location"
  let pc ← pyGetItem payload "predicted_class"
  .ok ("\nSYSTEM:\n" ++ SYSTEM_INSTRUCTIONS ++ "\n\nINPUT:\n- plant_name: "
    ++ pyStr pn ++ "\n- disease_percentage: " ++ pyStr dp
    ++ " %\n- previous_fertilizers: " ++ pf
    ++ "\n- acres: " ++ pyStr ac
    ++ "\n- location: " ++ pyStr loc
    ++ "\n- predicted_class: " ++ pyStr pc
    ++ promptOutputSection)

/-- One entry of the `schedules` list (`app.py` lines 115–119);
`scheduled_date` is a day ordinal, `today + offset` standing for
`(today + timedelta(days=offset)).isoformat()`. -/
structure ScheduleEntry where
  pesticide_name : Json
  scheduled_date : Nat
  completed : Bool

/-- The `for idx, t in enumerate(treatment_schedule, start=1)` loop
(`app.py` lines 112–119), called with `idx = 1`. -/
def buildLoop (today : Nat) : Nat → List Json → Except String (List Json × List ScheduleEntry)
  | _, [] => .ok ([], [])
  | idx, t :: rest => do
    let pname ← pyDictGetD t "product" (.str "Unknown")
    let tail ← buildLoop today (idx + 1) rest
    .ok (pname :: tail.1,
      { pesticide_name := pname,
        scheduled_date := today + (idx - 1) * 7,
        completed := false } :: tail.2)

/-- The extraction step (`app.py` lines 101–104): `parsed = {}`, then if both
`text.find` of brace-open and `text.rfind` of brace-close succeed,
`json.loads` of the slice. -/
def extractParsed (text : String) : Except String Json :=
  match pyFind '\x7b' text.data, pyRFind '\x7d' text.data with
  | some i, some j => json_loads (String.mk (pySlice text.data i (j + 1)))
  | _, _ => .ok (.obj [])

/-- The body of the `try` block of `recommend` (`app.py` lines 94–125), up to
the success value.  `provider` is the black-box
`genai.GenerativeModel(MODEL_NAME).generate_content(prompt).text`:
either an exception message or an optional text. -/
def tryBody (data : Json) (provider : String → Except String (Option String))
    (today : Nat) : Except String (List Json × List ScheduleEntry) := do
  let prompt ← make_prompt data
  let respText ← provider prompt
  let text := pyStrip (respText.getD "")
  let parsed ← extractParsed text
  let ts ← pyDictGetD parsed "treatment_schedule" (.arr [])
  let items ← pyIter ts
  buildLoop today 1 items

/-- A response from the `/recommend` view: the success JSON, a
`jsonify({"status": "fail", "error": …}), code` pair, or an exception
escaping the view function (Flask would turn it into a plain 500). -/
inductive RecommendResult where
  | success (pesticides : List Json) (treatment_schedules : List ScheduleEntry)
  | fail (httpStatus : Nat) (error : String)
  | uncaught (error : String)

/-- Truthiness of `os.getenv` results: `None` and `""` are falsy. -/
def optTruthy : Option String → Bool
  | none => false
  | some s => s != ""

/-- The `recommend` view (`app.py` lines 80–128).  `apiKey` is
`GOOGLE_API_KEY`, `body` is `request.get_json(silent=True)` (`none` for an
absent or unparseable body), `today` is `datetime.utcnow().date()`. -/
def recommend (apiKey : Option String) (body : Option Json)
    (provider : String → Except String (Option String)) (today : Nat) :
    RecommendResult :=
  if optTruthy apiKey then
    match body with
    | none => .fail 400 "Expected JSON body"
    | some data =>
      if data.truthy then
        match validate_payload data with
        | .error m => .uncaught m
        | .ok (some err) => .fail 400 err
        | .ok none =>
          match tryBody data provider today with
          | .ok out => .success out.1 out.2
          | .error e => .fail 500 e
      else .fail 400 "Expected JSON body"
  else .fail 500 "Missing GOOGLE_API_KEY env var"

/-! ## Helper lemmas -/

/-- A concrete valid payload (all six keys, numeric fields, null
`previous_fertilizers`), used by witnesses. -/
def samplePayload : Json :=
  .obj [("plant_name", .str "Tomato"), ("disease_percentage", .num 40 0),
        ("previous_fertilizers", .null), ("acres", .num 2 0),
        ("location", .str "Pune"), ("predicted_class", .str "Early Blight")]

theorem recommend_fail_of_tryBody_error (apiKey : Option String) (data : Json)
    (provider : String → Except String (Option String)) (today : Nat) (e : String)
    (hk : optTruthy apiKey = true) (hd : data.truthy = true)
    (hv : validate_payload data = .ok none)
    (he : tryBody data provider today = .error e) :
    recommend apiKey (some data) provider today = .fail 500 e := by
  simp [recommend, hk, hd, hv, he]

theorem recommend_success_of_tryBody_ok (apiKey : Option String) (data : Json)
    (provider : String → Except String (Option String)) (today : Nat)
    (ps : List Json) (ss : List ScheduleEntry)
    (hk : optTruthy apiKey = true) (hd : data.truthy = true)
    (hv : validate_payload data = .ok none)
    (he : tryBody data provider today = .ok (ps, ss)) :
    recommend apiKey (some data) provider today = .success ps ss := by
  simp [recommend, hk, hd, hv, he]

/-! ## Claims -/

/-- C8: when no provider credential is configured (`GOOGLE_API_KEY` unset or
empty), every call to `recommend` fails with the configuration error as a
server error (500), regardless of the body, the provider and the date — in
particular the payload is never read or validated, so an absent (`none`)
or invalid body still yields the configuration error, not a client error. -/
theorem recommend_missing_credential (apiKey : Option String)
    (h : optTruthy apiKey = false) (body : Option Json)
    (provider : String → Except String (Option String)) (today : Nat) :
    recommend apiKey body provider today =
      .fail 500 "Missing GOOGLE_API_KEY env var" := by
  simp [recommend, h]

/-- Witness for C8 at a concrete input: no key, absent body. -/
theorem recommend_missing_credential_witness :
    optTruthy none = false ∧
    recommend none none (fun _ => .ok none) 0 =
      .fail 500 "Missing GOOGLE_API_KEY env var" :=
  ⟨rfl, recommend_missing_credential none rfl none (fun _ => .ok none) 0⟩

/-- C9: a body that parses as JSON but is falsy in Python — the empty object,
the empty array, `null`, `false`, or `0` — is rejected with the client error
"Expected JSON body", exactly like an absent or unparseable body (`none`);
in particular the empty object gets "Expected JSON body" and not a list of
missing required keys. -/
theorem recommend_falsy_body_rejected (apiKey : Option String)
    (hk : optTruthy apiKey = true)
    (provider : String → Except String (Option String)) (today : Nat) :
    (∀ j : Json, j.truthy = false →
      recommend apiKey (some j) provider today = .fail 400 "Expected JSON body") ∧
    recommend apiKey none provider today = .fail 400 "Expected JSON body" ∧
    recommend apiKey (some (.obj [])) provider today = .fail 400 "Expected JSON body" ∧
    Json.truthy (.obj []) = false ∧ Json.truthy (.arr []) = false ∧
    Json.truthy .null = false ∧ Json.truthy (.bool false) = false ∧
    Json.truthy (.num 0 0) = false := by
  refine ⟨fun j hj => ?_, ?_, ?_, rfl, rfl, rfl, rfl, by decide⟩
  · simp [recommend, hk, hj]
  · simp [recommend, hk]
  · simp [recommend, hk, Json.truthy]

/-- Witness for C9 at a concrete input: the empty-object body. -/
theorem recommend_falsy_body_rejected_witness :
    optTruthy (some "k") = true ∧
    recommend (some "k") (some (.obj [])) (fun _ => .ok none) 0 =
      .fail 400 "Expected JSON body" :=
  ⟨by decide,
   (recommend_falsy_body_rejected (some "k") (by decide) (fun _ => .ok none) 0).2.2.1⟩

/-- C6: every exception raised inside the `try` block — prompt construction,
provider invocation, JSON extraction, or reshaping, all of which live in
`tryBody` — is caught at the operation boundary and becomes the uniform
server-error response `fail 500 (exception message)`; by the shape of that
result no pesticides or treatment_schedules from the interrupted computation
are returned. -/
theorem recommend_exception_uniform_failure (apiKey : Option String) (data : Json)
    (provider : String → Except String (Option String)) (today : Nat) (e : String)
    (hk : optTruthy apiKey = true) (hd : data.truthy = true)
    (hv : validate_payload data = .ok none)
    (he : tryBody data provider today = .error e) :
    recommend apiKey (some data) provider today = .fail 500 e :=
  recommend_fail_of_tryBody_error apiKey data provider today e hk hd hv he

/-- Witness for C6: a provider that raises "quota exceeded". -/
theorem recommend_exception_uniform_failure_witness :
    optTruthy (some "k") = true ∧ samplePayload.truthy = true ∧
    validate_payload samplePayload = .ok none ∧
    tryBody samplePayload (fun _ => .error "quota exceeded") 0 = .error "quota exceeded" ∧
    recommend (some "k") (some samplePayload) (fun _ => .error "quota exceeded") 0 =
      .fail 500 "quota exceeded" :=
  ⟨by decide, by decide, by rfl, by rfl,
   recommend_exception_uniform_failure (some "k") samplePayload
     (fun _ => .error "quota exceeded") 0 "quota exceeded"
     (by decide) (by decide) (by rfl) (by rfl)⟩

/-- C10: for the provider output brace-close/space/text/space/brace-open
(both braces present, last brace
before first brace: `find` gives 7, `rfind` gives 0) the sliced substring
`text[7:1]` is empty and not valid JSON, so `recommend` returns the generic
server-error failure, not an empty success response. -/
theorem recommend_reversed_braces_failure :
    pyFind '\x7b' (pyStrip "\x7d text \x7b").data = some 7 ∧
    pyRFind '\x7d' (pyStrip "\x7d text \x7b").data = some 0 ∧
    json_loads (String.mk (pySlice (pyStrip "\x7d text \x7b").data 7 (0 + 1))) =
      .error "Expecting value" ∧
    extractParsed (pyStrip "\x7d text \x7b") = .error "Expecting value" ∧
    recommend (some "k") (some samplePayload)
        (fun _ => .ok (some "\x7d text \x7b")) 0 =
      .fail 500 "Expecting value" :=
  ⟨rfl, rfl, rfl, rfl, rfl⟩

theorem findMissing_obj (kvs : List (String × Json)) (ks : List String) :
    findMissing (.obj kvs) ks = .ok (ks.filter (fun k => !dictHasKey kvs k)) := by
  induction ks with
  | nil => rfl
  | cons k ks ih =>
    simp only [findMissing, pyContains, ih, List.filter_cons, bind, Except.bind]
    cases h : dictHasKey kvs k <;> simp [h]

theorem validate_obj_missing (kvs : List (String × Json))
    (h : requiredKeys.filter (fun k => !dictHasKey kvs k) ≠ []) :
    validate_payload (.obj kvs) =
      .ok (some ("Missing: " ++ String.intercalate ", "
        (requiredKeys.filter (fun k => !dictHasKey kvs k)))) := by
  unfold validate_payload
  rw [findMissing_obj]
  simp only [bind, Except.bind]
  have : (requiredKeys.filter (fun k => !dictHasKey kvs k)).isEmpty = false := by
    cases hf : (requiredKeys.filter (fun k => !dictHasKey kvs k)) with
    | nil => exact absurd hf h
    | cons a l => rfl
  rw [this]
  simp

/-- C4 (counterexample): the empty JSON object is a payload missing all six
required keys, yet `recommend` answers "Expected JSON body" — not the
comma-separated list of missing key names — because the falsy-body check
fires before validation. -/
theorem missing_keys_message_empty_object_cex :
    requiredKeys.filter (fun k => !dictHasKey ([] : List (String × Json)) k) =
      requiredKeys ∧
    recommend (some "k") (some (.obj [])) (fun _ => .ok none) 0 =
      .fail 400 "Expected JSON body" ∧
    "Expected JSON body" ≠
      "Missing: plant_name, disease_percentage, previous_fertilizers, acres, location, predicted_class" :=
  ⟨rfl, rfl, by decide⟩

/-- C4 (amended): for every payload that is a non-empty JSON object missing
one or more of the six required keys, `recommend` fails with a client error
(400) whose message lists exactly the missing key names, comma-separated, in
their original declared order (the order of `requiredKeys`); the empty
object instead gets "Expected JSON body". -/
theorem recommend_missing_keys_message (apiKey : Option String)
    (kvs : List (String × Json))
    (provider : String → Except String (Option String)) (today : Nat)
    (hk : optTruthy apiKey = true) (hne : kvs ≠ [])
    (hmiss : requiredKeys.filter (fun k => !dictHasKey kvs k) ≠ []) :
    recommend apiKey (some (.obj kvs)) provider today =
      .fail 400 ("Missing: " ++ String.intercalate ", "
        (requiredKeys.filter (fun k => !dictHasKey kvs k))) := by
  have hv := validate_obj_missing kvs hmiss
  have ht : (Json.obj kvs).truthy = true := by
    cases kvs with
    | nil => exact absurd rfl hne
    | cons a l => rfl
  simp [recommend, hk, ht, hv]

/-- Witness for C4 (amended): a payload with only `plant_name`; the message
enumerates the other five keys in declared order. -/
theorem recommend_missing_keys_message_witness :
    optTruthy (some "k") = true ∧
    ([("plant_name", Json.str "x")] : List (String × Json)) ≠ [] ∧
    requiredKeys.filter
        (fun k => !dictHasKey [("plant_name", Json.str "x")] k) =
      ["disease_percentage", "previous_fertilizers", "acres", "location",
       "predicted_class"] ∧
    recommend (some "k") (some (.obj [("plant_name", Json.str "x")]))
        (fun _ => .ok none) 0 =
      .fail 400
        "Missing: disease_percentage, previous_fertilizers, acres, location, predicted_class" := by
  refine ⟨by decide, by simp, by decide, ?_⟩
  have h := recommend_missing_keys_message (some "k")
    [("plant_name", Json.str "x")] (fun _ => .ok none) 0
    (by decide) (by simp) (by decide)
  simpa using h

theorem validate_obj_nonnumeric (kvs : List (String × Json)) (e : String)
    (hall : requiredKeys.filter (fun k => !dictHasKey kvs k) = [])
    (hnum : numericCheck (.obj kvs) = .error e) :
    validate_payload (.obj kvs) =
      .ok (some "disease_percentage and acres must be numbers.") := by
  unfold validate_payload
  rw [findMissing_obj, hall]
  simp only [bind, Except.bind, List.isEmpty_nil, if_true]
  rw [hnum]

theorem hasKey_of_filter_nil (kvs : List (String × Json)) (k : String)
    (hall : requiredKeys.filter (fun k => !dictHasKey kvs k) = [])
    (hmem : k ∈ requiredKeys) : dictHasKey kvs k = true := by
  have := List.filter_eq_nil_iff.mp hall k hmem
  simpa using this

/-- C7: for every payload that is a JSON object containing all six required
keys but whose `disease_percentage` or `acres` value fails Python `float()`
coercion (so the `try` in `validate_payload` raises), `recommend` fails with
a client error (400) whose message states that both field names must be
numeric. -/
theorem recommend_nonnumeric_fields_error (apiKey : Option String)
    (kvs : List (String × Json)) (e : String)
    (provider : String → Except String (Option String)) (today : Nat)
    (hk : optTruthy apiKey = true)
    (hall : requiredKeys.filter (fun k => !dictHasKey kvs k) = [])
    (hnum : numericCheck (.obj kvs) = .error e) :
    recommend apiKey (some (.obj kvs)) provider today =
      .fail 400 "disease_percentage and acres must be numbers." := by
  have hv := validate_obj_nonnumeric kvs e hall hnum
  have hpk : dictHasKey kvs "plant_name" = true :=
    hasKey_of_filter_nil kvs "plant_name" hall (by decide)
  have ht : (Json.obj kvs).truthy = true := by
    cases kvs with
    | nil => simp [dictHasKey, dictLookup] at hpk
    | cons a l => rfl
  simp [recommend, hk, ht, hv]

/-- Witness for C7: `disease_percentage` is the string "abc", which
`float()` rejects. -/
theorem recommend_nonnumeric_fields_error_witness :
    numericCheck (.obj [("plant_name", Json.str "x"),
        ("disease_percentage", Json.str "abc"), ("previous_fertilizers", Json.null),
        ("acres", Json.num 2 0), ("location", Json.str "l"),
        ("predicted_class", Json.str "c")]) =
      .error "ValueError: could not convert string to float" ∧
    recommend (some "k")
        (some (.obj [("plant_name", Json.str "x"),
          ("disease_percentage", Json.str "abc"), ("previous_fertilizers", Json.null),
          ("acres", Json.num 2 0), ("location", Json.str "l"),
          ("predicted_class", Json.str "c")]))
        (fun _ => .ok none) 0 =
      .fail 400 "disease_percentage and acres must be numbers." :=
  ⟨by rfl,
   recommend_nonnumeric_fields_error (some "k")
     [("plant_name", Json.str "x"), ("disease_percentage", Json.str "abc"),
      ("previous_fertilizers", Json.null), ("acres", Json.num 2 0),
      ("location", Json.str "l"), ("predicted_class", Json.str "c")]
     "ValueError: could not convert string to float"
     (fun _ => .ok none) 0 (by decide) (by rfl) (by rfl)⟩

theorem lookup_of_filter_nil (kvs : List (String × Json)) (k : String)
    (hall : requiredKeys.filter (fun k => !dictHasKey kvs k) = [])
    (hmem : k ∈ requiredKeys) : ∃ v, dictLookup kvs k = some v := by
  have := hasKey_of_filter_nil kvs k hall hmem
  exact Option.isSome_iff_exists.mp this

theorem validate_obj_valid (kvs : List (String × Json))
    (hkeys : requiredKeys.filter (fun k => !dictHasKey kvs k) = [])
    (hnum : numericCheck (.obj kvs) = .ok ()) :
    validate_payload (.obj kvs) = .ok none := by
  unfold validate_payload
  rw [findMissing_obj, hkeys]
  simp only [bind, Except.bind, List.isEmpty_nil, if_true]
  rw [hnum]

/-- The payload of the C5 counterexample: all required keys except
`previous_fertilizers`. -/
def payloadNoFert : Json :=
  .obj [("plant_name", .str "Tomato"), ("disease_percentage", .num 40 0),
        ("acres", .num 2 0), ("location", .str "Pune"),
        ("predicted_class", .str "Early Blight")]

/-- C5 (counterexample): a payload in which `previous_fertilizers` is absent
but which is otherwise valid does NOT pass validation — `previous_fertilizers`
is in the `required` list, so `recommend` rejects the request with
"Missing: previous_fertilizers" instead of reaching the prompt. -/
theorem previous_fertilizers_absent_rejected_cex :
    validate_payload payloadNoFert = .ok (some "Missing: previous_fertilizers") ∧
    recommend (some "k") (some payloadNoFert) (fun _ => .ok none) 0 =
      .fail 400 "Missing: previous_fertilizers" :=
  ⟨rfl, rfl⟩

/-- C5 (amended): `previous_fertilizers` is a required key, so it may not be
absent; but its value may be `null` in an otherwise valid payload: such a
request passes validation, and the value is rendered as the literal string
"None" in the prompt built for the provider (the prompt contains the line
"- previous_fertilizers: None"). -/
theorem previous_fertilizers_null_none_prompt (kvs : List (String × Json))
    (hpf : dictLookup kvs "previous_fertilizers" = some Json.null)
    (hkeys : requiredKeys.filter (fun k => !dictHasKey kvs k) = [])
    (hnum : numericCheck (.obj kvs) = .ok ()) :
    validate_payload (.obj kvs) = .ok none ∧
    fertFragment (.obj kvs) = .ok "None" ∧
    ∃ p : String, make_prompt (.obj kvs) = .ok p ∧
      ∃ l r : List Char,
        p.data = l ++ ("- previous_fertilizers: None\n").data ++ r := by
  obtain ⟨v1, hv1⟩ := lookup_of_filter_nil kvs "plant_name" hkeys (by decide)
  obtain ⟨v2, hv2⟩ := lookup_of_filter_nil kvs "disease_percentage" hkeys (by decide)
  obtain ⟨v4, hv4⟩ := lookup_of_filter_nil kvs "acres" hkeys (by decide)
  obtain ⟨v5, hv5⟩ := lookup_of_filter_nil kvs "location" hkeys (by decide)
  obtain ⟨v6, hv6⟩ := lookup_of_filter_nil kvs "predicted_class" hkeys (by decide)
  have hfrag : fertFragment (.obj kvs) = .ok "None" := by
    simp [fertFragment, pyDictGetD, hpf, Json.truthy, bind, Except.bind]
  refine ⟨validate_obj_valid kvs hkeys hnum, hfrag, ?_⟩
  refine ⟨"\nSYSTEM:\n" ++ SYSTEM_INSTRUCTIONS ++ "\n\nINPUT:\n- plant_name: "
    ++ pyStr v1 ++ "\n- disease_percentage: " ++ pyStr v2
    ++ " %\n- previous_fertilizers: " ++ "None"
    ++ "\n- acres: " ++ pyStr v4
    ++ "\n- location: " ++ pyStr v5
    ++ "\n- predicted_class: " ++ pyStr v6
    ++ promptOutputSection, ?_, ?_⟩
  · simp [make_prompt, pyGetItem, hv1, hv2, hv4, hv5, hv6, hfrag, bind, Except.bind]
  · refine ⟨("\nSYSTEM:\n" ++ SYSTEM_INSTRUCTIONS ++ "\n\nINPUT:\n- plant_name: "
      ++ pyStr v1 ++ "\n- disease_percentage: " ++ pyStr v2 ++ " %\n").data,
      ("- acres: " ++ pyStr v4 ++ "\n- location: " ++ pyStr v5
      ++ "\n- predicted_class: " ++ pyStr v6 ++ promptOutputSection).data, ?_⟩
    have e1 : (" %\n- previous_fertilizers: " : String).data =
        (" %\n" : String).data ++ ("- previous_fertilizers: " : String).data := by
      decide
    have e2 : ("- previous_fertilizers: None\n" : String).data =
        ("- previous_fertilizers: " : String).data ++ ("None" : String).data
          ++ ("\n" : String).data := by
      decide
    have e3 : ("\n- acres: " : String).data =
        ("\n" : String).data ++ ("- acres: " : String).data := by
      decide
    simp only [String.data_append, e1, e2, e3, List.append_assoc,
      List.cons_append, List.nil_append]

/-- Witness for C5 (amended) at `samplePayload` (null `previous_fertilizers`). -/
theorem previous_fertilizers_null_none_prompt_witness :
    dictLookup [("plant_name", Json.str "Tomato"),
        ("disease_percentage", Json.num 40 0), ("previous_fertilizers", Json.null),
        ("acres", Json.num 2 0), ("location", Json.str "Pune"),
        ("predicted_class", Json.str "Early Blight")] "previous_fertilizers" =
      some Json.null ∧
    validate_payload samplePayload = .ok none ∧
    fertFragment samplePayload = .ok "None" :=
  ⟨by rfl,
   (previous_fertilizers_null_none_prompt
      [("plant_name", Json.str "Tomato"), ("disease_percentage", Json.num 40 0),
       ("previous_fertilizers", Json.null), ("acres", Json.num 2 0),
       ("location", Json.str "Pune"), ("predicted_class", Json.str "Early Blight")]
      (by rfl) (by rfl) (by rfl)).1,
   (previous_fertilizers_null_none_prompt
      [("plant_name", Json.str "Tomato"), ("disease_percentage", Json.num 40 0),
       ("previous_fertilizers", Json.null), ("acres", Json.num 2 0),
       ("location", Json.str "Pune"), ("predicted_class", Json.str "Early Blight")]
      (by rfl) (by rfl) (by rfl)).2.1⟩

theorem findIdx_none_of_all_false (p : Char → Bool) (l : List Char)
    (h : ∀ x ∈ l, p x = false) : l.findIdx? p = none := by
  rw [List.findIdx?_eq_none_iff]
  intro x hx
  simpa using h x hx

theorem mem_of_mem_pyStrip {c : Char} {s : String} (h : c ∈ (pyStrip s).data) :
    c ∈ s.data := by
  unfold pyStrip at h
  have h1 : c ∈ ((s.data.dropWhile pySpace).reverse.dropWhile pySpace).reverse := h
  rw [List.mem_reverse] at h1
  have h2 := (List.dropWhile_sublist pySpace).mem h1
  rw [List.mem_reverse] at h2
  exact (List.dropWhile_sublist pySpace).mem h2

/-- C3: for every provider output `raw` containing no brace character at all,
a request that reaches the provider does not raise: `recommend` returns the
success response with an empty pesticides list and an empty
treatment_schedules list. -/
theorem recommend_no_braces_success (apiKey : Option String) (data : Json)
    (provider : String → Except String (Option String)) (today : Nat)
    (p raw : String)
    (hk : optTruthy apiKey = true) (hd : data.truthy = true)
    (hv : validate_payload data = .ok none)
    (hmp : make_prompt data = .ok p)
    (hpr : provider p = .ok (some raw))
    (hnob : '\x7b' ∉ raw.data) (hncb : '\x7d' ∉ raw.data) :
    recommend apiKey (some data) provider today = .success [] [] := by
  have h1 : pyFind '\x7b' (pyStrip raw).data = none := by
    apply findIdx_none_of_all_false
    intro x hx
    simp only [beq_eq_false_iff_ne, ne_eq]
    intro hEq
    exact hnob (hEq ▸ mem_of_mem_pyStrip hx)
  have h2 : pyRFind '\x7d' (pyStrip raw).data = none := by
    unfold pyRFind
    rw [findIdx_none_of_all_false]
    intro x hx
    rw [List.mem_reverse] at hx
    simp only [beq_eq_false_iff_ne, ne_eq]
    intro hEq
    exact hncb (hEq ▸ mem_of_mem_pyStrip hx)
  have hex : extractParsed (pyStrip raw) = .ok (.obj []) := by
    unfold extractParsed
    rw [h1, h2]
  have ht : tryBody data provider today = .ok ([], []) := by
    simp [tryBody, hmp, hpr, bind, Except.bind, hex, pyDictGetD, dictLookup,
      pyIter, buildLoop]
  exact recommend_success_of_tryBody_ok apiKey data provider today [] []
    hk hd hv ht

/-- Witness for C3: provider output "no braces at all". -/
theorem recommend_no_braces_success_witness :
    ('\x7b' ∉ ("no braces at all" : String).data) ∧
    ('\x7d' ∉ ("no braces at all" : String).data) ∧
    recommend (some "k") (some samplePayload)
        (fun _ => .ok (some "no braces at all")) 0 = .success [] [] := by
  refine ⟨by decide, by decide, ?_⟩
  apply recommend_no_braces_success (some "k") samplePayload
    (fun _ => .ok (some "no braces at all")) 0 _ "no braces at all"
    (by decide) (by decide) (by rfl) (by rfl) (by rfl) (by decide) (by decide)

theorem buildLoop_ok_spec (today : Nat) :
    ∀ (items : List Json) (idx : Nat), 1 ≤ idx →
      ∀ (ps : List Json) (ss : List ScheduleEntry),
        buildLoop today idx items = .ok (ps, ss) →
        ps.length = items.length ∧ ss.length = items.length ∧
        (∀ i (h : i < ss.length),
          (ss.get ⟨i, h⟩).scheduled_date = today + (idx - 1 + i) * 7 ∧
          (ss.get ⟨i, h⟩).completed = false) := by
  intro items
  induction items with
  | nil =>
    intro idx hidx ps ss h
    simp [buildLoop] at h
    obtain ⟨h1, h2⟩ := h
    subst h1; subst h2
    refine ⟨rfl, rfl, ?_⟩
    intro i h
    simp at h
  | cons t rest ih =>
    intro idx hidx ps ss h
    cases hg : pyDictGetD t "product" (.str "Unknown") with
    | error e => simp [buildLoop, hg, bind, Except.bind] at h
    | ok pname =>
      cases hb : buildLoop today (idx + 1) rest with
      | error e => simp [buildLoop, hg, hb, bind, Except.bind] at h
      | ok tail =>
        simp only [buildLoop, hg, hb, bind, Except.bind, Except.ok.injEq] at h
        obtain ⟨hps, hss⟩ := Prod.mk.injEq .. ▸ h
        subst hps
        subst hss
        have spec := ih (idx + 1) (by omega) tail.1 tail.2 (by rw [hb])
        refine ⟨by simp [spec.1], by simp [spec.2.1], ?_⟩
        intro i hi
        cases i with
        | zero =>
          constructor
          · simp
          · simp
        | succ j =>
          have hj : j < tail.2.length := by
            simpa using hi
          have hspec := spec.2.2 j hj
          constructor
          · have := hspec.1
            simp only [List.get_cons_succ]
            rw [this]
            have : idx + 1 - 1 + j = idx - 1 + (j + 1) := by omega
            rw [this]
          · have := hspec.2
            simp only [List.get_cons_succ]
            rw [this]

/-- C2: whenever the `treatment_schedule` of the parsed provider object is a list
of N items and the reshaping loop succeeds, `recommend` returns the success
response whose pesticides list and treatment_schedules list each have length
N, whose entry at 0-based position i carries
`scheduled_date = today + i * 7` (the current UTC date plus (i₁-1)·7 days
for 1-based i₁, so dates increase by exactly 7 days from one entry to the
next) and whose every entry has `completed = false`. -/
theorem recommend_schedule_lengths_dates (apiKey : Option String) (data : Json)
    (provider : String → Except String (Option String)) (today : Nat)
    (p raw : String) (parsed : Json) (items ps : List Json)
    (ss : List ScheduleEntry)
    (hk : optTruthy apiKey = true) (hd : data.truthy = true)
    (hv : validate_payload data = .ok none)
    (hmp : make_prompt data = .ok p)
    (hpr : provider p = .ok (some raw))
    (hex : extractParsed (pyStrip raw) = .ok parsed)
    (hts : pyDictGetD parsed "treatment_schedule" (.arr []) = .ok (.arr items))
    (hbl : buildLoop today 1 items = .ok (ps, ss)) :
    recommend apiKey (some data) provider today = .success ps ss ∧
    ps.length = items.length ∧ ss.length = items.length ∧
    (∀ i (h : i < ss.length),
      (ss.get ⟨i, h⟩).scheduled_date = today + i * 7 ∧
      (ss.get ⟨i, h⟩).completed = false) ∧
    (∀ i (h : i + 1 < ss.length),
      (ss.get ⟨i + 1, h⟩).scheduled_date =
        (ss.get ⟨i, Nat.lt_of_succ_lt h⟩).scheduled_date + 7) := by
  have ht : tryBody data provider today = .ok (ps, ss) := by
    simp [tryBody, hmp, hpr, bind, Except.bind, hex, hts, pyIter, hbl]
  have spec := buildLoop_ok_spec today items 1 (Nat.le_refl 1) ps ss hbl
  refine ⟨recommend_success_of_tryBody_ok apiKey data provider today ps ss hk hd hv ht,
    spec.1, spec.2.1, ?_, ?_⟩
  · intro i h
    have := spec.2.2 i h
    simpa using this
  · intro i h
    have h1 := (spec.2.2 (i + 1) h).1
    have h2 := (spec.2.2 i (Nat.lt_of_succ_lt h)).1
    rw [h1, h2]
    omega

/-- Provider output for the C2 witness: two products wrapped in prose. -/
def c2raw : String :=
  "x \x7b\"treatment_schedule\":[\x7b\"product\":\"A\"\x7d,\x7b\"product\":\"B\"\x7d]\x7d y"

/-- The object `json.loads` extracts from `c2raw`. -/
def c2parsed : Json :=
  .obj [("treatment_schedule",
    .arr [.obj [("product", .str "A")], .obj [("product", .str "B")]])]

/-- The `treatment_schedule` items of `c2parsed`. -/
def c2items : List Json :=
  [.obj [("product", .str "A")], .obj [("product", .str "B")]]

/-- Witness for C2: two items, dates `today` and `today + 7` for `today = 10`. -/
theorem recommend_schedule_lengths_dates_witness :
    extractParsed (pyStrip c2raw) = .ok c2parsed ∧
    buildLoop 10 1 c2items =
      .ok ([Json.str "A", Json.str "B"],
           [⟨Json.str "A", 10, false⟩, ⟨Json.str "B", 17, false⟩]) ∧
    recommend (some "k") (some samplePayload) (fun _ => .ok (some c2raw)) 10 =
      .success [Json.str "A", Json.str "B"]
        [⟨Json.str "A", 10, false⟩, ⟨Json.str "B", 17, false⟩] :=
  ⟨by rfl, by rfl,
   (recommend_schedule_lengths_dates (some "k") samplePayload
      (fun _ => .ok (some c2raw)) 10 _ c2raw c2parsed c2items
      [Json.str "A", Json.str "B"]
      [⟨Json.str "A", 10, false⟩, ⟨Json.str "B", 17, false⟩]
      (by decide) (by decide) (by rfl) (by rfl) (by rfl) (by rfl) (by rfl)
      (by rfl)).1⟩

/-- C1: JSON extraction in `recommend` locates the first brace-open character
and the last brace-close character of the stripped provider text; if either
is absent the extracted object is the empty dict, and otherwise the substring
from the first brace-open through the last brace-close inclusive
(`text[start : end + 1]`) is handed to `json.loads`; a parse failure there is
routed to the generic failure path of the operation (`fail 500` with the
exception message), not an unhandled fault. -/
theorem recommend_extraction_spec (apiKey : Option String) (data : Json)
    (provider : String → Except String (Option String)) (today : Nat)
    (p raw : String)
    (hk : optTruthy apiKey = true) (hd : data.truthy = true)
    (hv : validate_payload data = .ok none)
    (hmp : make_prompt data = .ok p)
    (hpr : provider p = .ok (some raw)) :
    (∀ text : String,
      (pyFind '\x7b' text.data = none ∨ pyRFind '\x7d' text.data = none) →
      extractParsed text = .ok (.obj [])) ∧
    (∀ (text : String) (i j : Nat),
      pyFind '\x7b' text.data = some i → pyRFind '\x7d' text.data = some j →
      extractParsed text = json_loads (String.mk (pySlice text.data i (j + 1)))) ∧
    (∀ e : String, extractParsed (pyStrip raw) = .error e →
      recommend apiKey (some data) provider today = .fail 500 e) := by
  refine ⟨?_, ?_, ?_⟩
  · intro text h
    unfold extractParsed
    rcases h with h | h
    · rw [h]
    · rw [h]
      cases pyFind '\x7b' text.data <;> rfl
  · intro text i j h1 h2
    unfold extractParsed
    rw [h1, h2]
  · intro e he
    have ht : tryBody data provider today = .error e := by
      simp [tryBody, hmp, hpr, bind, Except.bind, he]
    exact recommend_fail_of_tryBody_error apiKey data provider today e hk hd hv ht

/-- Witness for C1: provider output whose brace slice is not valid JSON:
`recommend` answers with the generic 500 failure. -/
theorem recommend_extraction_spec_witness :
    optTruthy (some "k") = true ∧
    extractParsed (pyStrip "\x7b oops\x7d") = .error "Expecting value" ∧
    recommend (some "k") (some samplePayload)
        (fun _ => .ok (some "\x7b oops\x7d")) 0 =
      .fail 500 "Expecting value" :=
  ⟨by decide, by rfl,
   (recommend_extraction_spec (some "k") samplePayload
      (fun _ => .ok (some "\x7b oops\x7d")) 0 _ "\x7b oops\x7d"
      (by decide) (by decide) (by rfl) (by rfl) (by rfl)).2.2
     "Expecting value" (by rfl)⟩
